import Mathlib

/-!
Verification of the libservice service-lifecycle engine against its
specification. The definitions below are shallow embeddings of the C++
sources under src/service/; each is annotated with the function it
embeds. Theorems settle the specification claims about pid-file
allocation, the shared termination region, the signal/event core and
the control channel.
-/

namespace Svc

/-! ### PID file manager (src/service/pidfile.cpp) -/

/-- Abstract state of the pid-file path before `allocate` runs:
`existing = none` means the file does not exist; `existing = some c`
means it exists and `c` is the pid parsed from it (`none` when
`fscanf("%d")` cannot parse a pid). `lockHeldByOther` is true when the
non-blocking `F_SETLK` write lock on the existing file fails because a
live process holds it. `selfPid` is the result of `getpid()`. -/
structure PidWorld where
  existing : Option (Option Int)
  lockHeldByOther : Bool
  selfPid : Int
deriving DecidableEq, Repr

/-- Result of `service::pidfile::allocate`: either the file was
(re-)created exclusively and now records `written` (with `recreated`
true when a pre-existing file was unlinked first), or the call raised
`AlreadyRunning` carrying the pid read from the file, leaving the
existing file in place. -/
inductive AllocResult where
  | allocated (recreated : Bool) (written : Int)
  | alreadyRunning (pid : Int)
deriving DecidableEq, Repr

/-- Shallow embedding of `service::pidfile::allocate`
(src/service/pidfile.cpp:81-169). The initial `open(O_RDWR|O_CREAT|
O_EXCL)` fails with `EEXIST` exactly when the file exists; the staleness
test is the source condition `(fscanf != 1) || (pid == getpid()) ||
!lockFd(fd)` where `lockFd` returns 0 on success, so `!lockFd(fd)` is
true exactly when the non-blocking write lock succeeds. The stale path
unlinks and re-creates the file exclusively; the final common path locks
the fresh descriptor and writes `getpid()`. -/
def pidfileAllocate (w : PidWorld) : AllocResult :=
  match w.existing with
  | none =>
      -- O_CREAT|O_EXCL succeeded: lock, write own pid
      AllocResult.allocated false w.selfPid
  | some content =>
      -- EEXIST: reopen O_RDWR, fdopen "rw", fscanf "%d"
      let parsed := content.isSome
      let pid : Int := content.getD (-1)
      if ¬parsed ∨ pid = w.selfPid ∨ ¬w.lockHeldByOther then
        -- stale: unlink, re-create O_CREAT|O_EXCL, lock, write own pid
        AllocResult.allocated true w.selfPid
      else
        -- LOGTHROW(err3, AlreadyRunning) with the pid read; no unlink
        AllocResult.alreadyRunning pid

/-! ### Shared termination region: terminator set
(src/service/detail/signalhandler.hpp) -/

/-- `Terminator::find(pid)` (signalhandler.hpp:125-130): index of the
first slot equal to `pid`, if any. A slot holding 0 is empty. -/
def termFind (pids : List Int) (pid : Int) : Option Nat :=
  pids.findIdx? (fun p => p == pid)

/-- `Terminator::find()` (signalhandler.hpp:116-119): is the calling
process's pid in the set? -/
def termFindSelf (self : Int) (pids : List Int) : Bool :=
  (termFind pids self).isSome

/-- `Terminator::add(pid)` (signalhandler.hpp:98-107): pid 0 defaults to
`getpid()`; idempotent when present; otherwise stores the pid into the
first empty slot; returns false when full. -/
def termAdd (self : Int) (pids : List Int) (pid : Int) : List Int × Bool :=
  let pid := if pid = 0 then self else pid
  if (termFind pids pid).isSome then (pids, true)
  else
    match termFind pids 0 with
    | some i => (pids.set i pid, true)
    | none => (pids, false)

/-- `Terminator::remove(pid)` (signalhandler.hpp:109-114). The source is
`auto p(find(pid)); if (p) { p = 0; }`: `p` is a local copy of the
returned `::pid_t*`, so the assignment `p = 0` nulls the local pointer
and never writes through it — the slot array is returned unchanged. -/
def termRemove (self : Int) (pids : List Int) (pid : Int) : List Int :=
  let pid := if pid = 0 then self else pid
  match termFind pids pid with
  | some _ => pids
  | none => pids

/-- Modelled from the spec: `terminator.remove(pid=self)` clears the
matching slot (spec section 4.1). This is the behaviour the source would
have with `*p = 0`; used to exhibit the divergence of `termRemove`. -/
def termRemoveSpec (self : Int) (pids : List Int) (pid : Int) : List Int :=
  let pid := if pid = 0 then self else pid
  match termFind pids pid with
  | some i => pids.set i 0
  | none => pids

/-! ### Signal handler state (src/service/detail/signalhandler.cpp) -/

/-- Process-visible state owned by `SignalHandler`: the terminator slot
array, the shared `terminated_` flag, the local `thisTerminated_` flag,
and the two event counters with their process-local last-seen values. -/
structure SH where
  terminator : List Int
  terminated : Bool
  thisTerminated : Bool
  logRotateEvent : Nat
  lastLogRotateEvent : Nat
  statEvent : Nat
  lastStatEvent : Nat
deriving DecidableEq, Repr

/-- `SignalHandler::markTerminated` (signalhandler.cpp:257-268): sets
`thisTerminated_`; sets the shared `terminated_` flag only when the
calling pid is in the terminator set. -/
def markTerminated (self : Int) (s : SH) : SH :=
  let s1 := { s with thisTerminated := true }
  if termFindSelf self s1.terminator then { s1 with terminated := true }
  else s1

/-- A signal delivered to the reactor. -/
inductive SigEvent where
  | sigterm
  | sigint
  | sighup
  | sigusr1
  | user (signo : Nat)
deriving DecidableEq, Repr

/-- Dispatch switch of `SignalHandler::signal`
(signalhandler.cpp:231-255): SIGTERM/SIGINT call `markTerminated`,
SIGHUP increments `logRotateEvent_`, SIGUSR1 increments `statEvent_`,
any other signal is forwarded to the user hook (no handler state
change). -/
def shSignal (self : Int) (s : SH) (ev : SigEvent) : SH :=
  match ev with
  | SigEvent.sigterm => markTerminated self s
  | SigEvent.sigint => markTerminated self s
  | SigEvent.sighup => { s with logRotateEvent := s.logRotateEvent + 1 }
  | SigEvent.sigusr1 => { s with statEvent := s.statEvent + 1 }
  | SigEvent.user _ => s

/-- Outcome of one `SignalHandler::process()` call: the state after the
call, whether the owner's `logRotate()` callback ran, whether the
owner's `processStat()` callback ran, and the returned stop flag. -/
structure ProcResult where
  state : SH
  logRotated : Bool
  statProcessed : Bool
  stop : Bool
deriving DecidableEq, Repr

/-- `SignalHandler::process` (signalhandler.cpp:152-180). `ios_.poll()`
drains the ready events without blocking — modelled as delivering the
pending signal events in order. Each event counter is then loaded and
compared against its last-seen value; on a change `owner_.logRotate()`
runs (in any process) or `owner_.processStat()` runs (only when
`getpid() == mainPid_`), the last-seen value is set to the loaded value,
and the call returns `terminated_ || thisTerminated_`. -/
def shProcess (self mainPid : Int) (pending : List SigEvent) (s : SH) :
    ProcResult :=
  let d := pending.foldl (shSignal self) s
  let rotValue := d.logRotateEvent
  let rot := rotValue != d.lastLogRotateEvent
  let s1 := if rot then { d with lastLogRotateEvent := rotValue } else d
  let stValue := s1.statEvent
  let st := (stValue != s1.lastStatEvent) && (self == mainPid)
  let s2 := if st then { s1 with lastStatEvent := stValue } else s1
  { state := s2, logRotated := rot, statProcessed := st
    stop := s2.terminated || s2.thisTerminated }

/-- An event visible to the reactor loop: a signal arriving (queued
until the next poll) or a call to `process()`. -/
inductive Ev where
  | sig (e : SigEvent)
  | proc
deriving DecidableEq, Repr

/-- State between `process()` calls: the handler state plus the signals
delivered since the last poll. -/
structure World where
  sh : SH
  pending : List SigEvent
deriving DecidableEq, Repr

/-- Run a trace of events, collecting for each `process()` call whether
it invoked the owner's `logRotate()` callback. -/
def runRots (self mainPid : Int) (w : World) : List Ev → List Bool
  | [] => []
  | Ev.sig e :: rest =>
      runRots self mainPid ⟨w.sh, w.pending ++ [e]⟩ rest
  | Ev.proc :: rest =>
      let r := shProcess self mainPid w.pending w.sh
      r.logRotated :: runRots self mainPid ⟨r.state, []⟩ rest

/-! ### Control connection, server side
(`CtrlConnection::lineRead`, src/service/detail/signalhandler.cpp:352-437) -/

/-- ASCII EOT (0x04), the response-block terminator. -/
def eotChar : Char := Char.ofNat 4

/-- EOT as a one-character string, as written by `os << '\4'`. -/
def eotStr : String := String.mk [eotChar]

/-- Helper for `splitWs`: scan the characters, flushing the current
token at each separator; empty tokens are not produced, so separator
runs collapse. -/
def splitWsAux (cur : List Char) : List Char → List String
  | [] => if cur = [] then [] else [String.mk cur.reverse]
  | c :: rest =>
      if c = ' ' ∨ c = '\t' then
        (if cur = [] then [] else [String.mk cur.reverse])
          ++ splitWsAux [] rest
      else splitWsAux (c :: cur) rest

/-- Modelled from the spec: `utility::separated_values::split` (external
libutility, not part of this repository) tokenises the request line on
runs of space or tab, per the spec's framing rule, so whitespace-only
input yields no tokens. -/
def splitWs (line : String) : List String :=
  splitWsAux [] line.data

/-- `front.substr(1)`: the first token with its leading byte removed. -/
def dropHead (s : String) : String := String.mk (s.data.drop 1)

/-- `Service::CtrlCommand` (verb and positional arguments). -/
structure CtrlCommand where
  cmd : String
  args : List String
deriving DecidableEq, Repr

/-- Observable behaviour of the user's `processCtrl(cmd, os)` handler on
one command: the text it wrote to the output stream before returning or
throwing, and whether it threw. -/
structure HandlerResult where
  written : String
  threw : Bool
deriving DecidableEq, Repr

/-- Side effect of a built-in verb on the signal handler:
`sh_.logRotate()` or `sh_.terminate()`. -/
inductive CtrlEffect where
  | noEff
  | rotateEff
  | termEff
deriving DecidableEq, Repr

/-- Result of handling one request line: the bytes appended to the
output stream, whether the connection was marked for close (`closed_`,
which suppresses the next `startRead`), and the built-in side effect. -/
structure Reply where
  output : String
  closed : Bool
  effect : CtrlEffect
deriving DecidableEq, Repr

/-- The error line written when a user command throws
(signalhandler.cpp:417). -/
def errLine : String := "error: failed to execute command\n"

/-- Built-in help text (signalhandler.cpp:404-407). -/
def helpText : String :=
  "logrotate      schedules log reopen event\n"
  ++ "terminate      schedules termination event\n"
  ++ "help           shows this help\n"

/-- `CtrlConnection::lineRead` (signalhandler.cpp:352-437), request
handling after a complete line is read: split into tokens; an empty
command gets a fixed reply; a leading `!` on the first token is stripped
and marks the connection for close, suppressing the block terminator;
built-in verbs `logrotate`, `terminate`, `exit` and `help` are handled
before delegation to the user handler; an exception from the user
handler appends `errLine`; finally EOT is appended when the block
terminator was not suppressed. -/
def lineRead (handler : CtrlCommand → HandlerResult) (line : String) :
    Reply :=
  let cmdValue := splitWs line
  match cmdValue with
  | [] =>
      { output := "empty command received\n" ++ eotStr
        closed := false, effect := CtrlEffect.noEff }
  | front0 :: args =>
      let bang := front0.data.head? == some '!'
      let front := if bang then dropHead front0 else front0
      let tb0 := !bang
      if front = "logrotate" then
        { output := "log rotation scheduled\n" ++ (if tb0 then eotStr else "")
          closed := bang, effect := CtrlEffect.rotateEff }
      else if front = "terminate" then
        { output :=
            "termination scheduled, bye\n" ++ (if tb0 then eotStr else "")
          closed := bang, effect := CtrlEffect.termEff }
      else if front = "exit" then
        { output := "", closed := true, effect := CtrlEffect.noEff }
      else if front = "help" then
        let h := handler ⟨front, args⟩
        { output := helpText ++ h.written
            ++ (if h.threw then errLine else "")
            ++ (if tb0 then eotStr else "")
          closed := bang, effect := CtrlEffect.noEff }
      else
        let h := handler ⟨front, args⟩
        { output := h.written ++ (if h.threw then errLine else "")
            ++ (if tb0 then eotStr else "")
          closed := bang, effect := CtrlEffect.noEff }

/-- A request closes the connection when its first token carries a
leading `!` or its verb (after stripping) is `exit`. -/
def requestCloses (line : String) : Bool :=
  match splitWs line with
  | [] => false
  | front0 :: _ =>
      let bang := front0.data.head? == some '!'
      bang || ((if bang then dropHead front0 else front0) == "exit")

/-- A string that is a sequence of zero or more newline-terminated
lines: empty, or ending in a newline. -/
abbrev linesBlock (s : String) : Prop :=
  s.data = [] ∨ s.data.getLast? = some '\n'

/-- A string containing no EOT byte. -/
abbrev eotFree (s : String) : Prop := eotChar ∉ s.data

/-- A well-formed response fragment: EOT-free and consisting of
newline-terminated lines. -/
abbrev goodStr (s : String) : Prop := eotFree s ∧ linesBlock s

/-- Equality on `Except` results is decidable when it is on both
components; used to evaluate modelled fallible calls on concrete
inputs. -/
instance {e a : Type} [DecidableEq e] [DecidableEq a] :
    DecidableEq (Except e a) := fun x y =>
  match x, y with
  | Except.error u, Except.error v =>
      match decEq u v with
      | isTrue h => isTrue (h ▸ rfl)
      | isFalse h => isFalse fun hc => h (by injection hc)
  | Except.error _, Except.ok _ => isFalse fun hc => by injection hc
  | Except.ok _, Except.error _ => isFalse fun hc => by injection hc
  | Except.ok u, Except.ok v =>
      match decEq u v with
      | isTrue h => isTrue (h ▸ rfl)
      | isFalse h => isFalse fun hc => h (by injection hc)

/-! ### Management signal actions (src/service/service.cpp) -/

/-- Linux signal number used by `Signal::stop`. -/
def SIGTERM : Nat := 15

/-- Linux signal number used by `Signal::logrotate`. -/
def SIGHUP : Nat := 1

/-- Linux signal number used by `Signal::stat`. -/
def SIGUSR1 : Nat := 10

/-- `SigDef` (service.cpp:179-185): verb, signal number, timeout
(default −1, meaning no timeout was given). -/
structure SigDef where
  signal : String
  signo : Nat
  timeout : Int
deriving DecidableEq, Repr

/-- Value of a non-empty all-digit string, else `none`. -/
def digitsVal (cs : List Char) : Option Nat :=
  if cs ≠ [] ∧ cs.all (fun c => c.isDigit) then
    some (cs.foldl (fun a c => 10 * a + (c.toNat - 48)) 0)
  else none

/-- `boost::lexical_cast<std::time_t>`: an optional sign followed by
digits, consuming the entire string; anything else throws
`bad_lexical_cast`. -/
def parseTimeT (cs : List Char) : Option Int :=
  match cs with
  | '-' :: rest => (digitsVal rest).map (fun n => -(n : Int))
  | '+' :: rest => (digitsVal rest).map (fun n => (n : Int))
  | _ => (digitsVal cs).map (fun n => (n : Int))

/-- `parseSigDef` (service.cpp:194-234): the verb is the part before
the first `/`; unknown verbs call `immediate_exit(3)` (modelled as
`Except.error 3`); a `/timeout` suffix is parsed only for `stop`
(`immediate_exit(3)` on a bad number) and ignored with a warning for
the other verbs. -/
def parseSigDef (arg : String) : Except Nat SigDef :=
  let cs := arg.data
  let sigCs := cs.takeWhile (fun c => c ≠ '/')
  let hasSlash := sigCs.length < cs.length
  let signalStr := String.mk sigCs
  match (if signalStr = "stop" then some SIGTERM
         else if signalStr = "logrotate" then some SIGHUP
         else if signalStr = "status" then some (0 : Nat)
         else if signalStr = "stat" then some SIGUSR1
         else none) with
  | none => Except.error 3
  | some signo =>
      if hasSlash ∧ signo = SIGTERM then
        match parseTimeT (cs.drop (sigCs.length + 1)) with
        | some t => Except.ok ⟨signalStr, signo, t⟩
        | none => Except.error 3
      else Except.ok ⟨signalStr, signo, -1⟩

/-- One observed call of `pidfile::signal(pidFile, signo)`: the
returned value (`0` means the instance is not running; a positive pid
means the signal was delivered) or a thrown exception. -/
inductive SigOutcome where
  | ret (pid : Int)
  | err
deriving DecidableEq, Repr

/-- Loop of `waitForStop` (service.cpp:236-263). Each element of the
trace is the outcome of one `pidfile::signal` call paired with the
steady-clock value (ms) at the deadline check that follows it; `none`
means the modelled trace ended before the loop did. On the first
iteration a non-running instance yields 1, later 0; a surviving
instance at or past the deadline yields 2; an exception anywhere
yields 3. -/
def waitForStopGo (deadline : Int) :
    List (SigOutcome × Int) → Bool → Option Nat
  | [], _ => none
  | (o, t) :: rest, first =>
      match o with
      | SigOutcome.err => some 3
      | SigOutcome.ret p =>
          if p = 0 then some (if first then 1 else 0)
          else if t ≥ deadline then some 2
          else waitForStopGo deadline rest false

/-- `waitForStop` (service.cpp:236-263): the deadline is the entry
clock value plus the timeout in seconds (1000 ms each). -/
def waitForStop (timeout t0 : Int) (steps : List (SigOutcome × Int)) :
    Option Nat :=
  waitForStopGo (t0 + timeout * 1000) steps true

/-- `processStatus` (service.cpp:265-285), using
`reportMissingPid=true`: 0 running, 1 pid file present but instance not
running, 3 no pid file (negative return), 4 on exception. -/
def processStatus : List (SigOutcome × Int) → Option Nat
  | [] => none
  | (o, _) :: _ =>
      match o with
      | SigOutcome.err => some 4
      | SigOutcome.ret p =>
          some (if p = 0 then 1 else if p < 0 then 3 else 0)

/-- `sendSignal` (service.cpp:287-323): parse the `--signal` argument;
`stop` with a non-negative timeout is handled by `waitForStop`,
`status` by `processStatus`; every other case sends the signal once —
1 when the instance is not running, 3 on an exception, 0
(`EXIT_SUCCESS`) otherwise. -/
def sendSignal (arg : String) (t0 : Int)
    (steps : List (SigOutcome × Int)) : Option Nat :=
  match parseSigDef arg with
  | Except.error c => some c
  | Except.ok d =>
      if d.signo = SIGTERM ∧ d.timeout ≥ 0 then waitForStop d.timeout t0 steps
      else if d.signo = 0 then processStatus steps
      else
        match steps with
        | [] => none
        | (o, _) :: _ =>
            match o with
            | SigOutcome.err => some 3
            | SigOutcome.ret p => some (if p = 0 then 1 else 0)

/-! ### Control clients (src/service/detail/ctrlclient.hpp,
src/service/ctrlclient.cpp) -/

/-- Helper for `splitNl`: split characters at every newline, keeping
empty tokens. -/
def splitNlAux (cur : List Char) : List Char → List String
  | [] => [String.mk cur.reverse]
  | c :: rest =>
      if c = '\n' then String.mk cur.reverse :: splitNlAux [] rest
      else splitNlAux (c :: cur) rest

/-- `boost::algorithm::split(lines, response, is_any_of("\n"))`: empty
tokens are kept and the empty string yields one empty token. -/
def splitNl (s : String) : List String := splitNlAux [] s.data

/-- `s.substr(n)` for a byte offset `n` into an ASCII string. -/
def dropN (s : String) (n : Nat) : String := String.mk (s.data.drop n)

/-- `boost::algorithm::starts_with(s, "error: ")`. -/
def startsErr (s : String) : Bool := "error: ".data.isPrefixOf s.data

/-- `detail::CtrlClient<Protocol>::command`
(detail/ctrlclient.hpp:78-109) on the response text read up to the EOT
byte: split on newlines; when the first line begins with `error: `,
raise `CtrlCommandError` (modelled as `Except.error`) with the message
`<name>: <tail after the tag>`; otherwise drop a trailing empty element
and return the lines. -/
def detailCommand (name response : String) :
    Except String (List String) :=
  let lines := splitNl response
  match lines with
  | [] => Except.ok []
  | front :: _ =>
      if startsErr front then
        Except.error (name ++ ": " ++ dropN front 7)
      else if lines.getLast? = some "" then Except.ok lines.dropLast
      else Except.ok lines

/-- `service::CtrlClient::Detail::command` (ctrlclient.cpp:60-79): the
local UNIX-socket client returns the newline-split response unchanged —
it performs no `error: ` detection and no trailing-element drop. -/
def localCommand (response : String) : List String := splitNl response

/-! ### Control-channel handshake (src/service/ctrlhandshake.cpp) -/

/-- The challenge alphabet (ctrlhandshake.cpp:39-43) by ASCII code, in
the order of the source literal: `a`-`z`, `A`-`Z`, `1`-`9` then `0`,
the row `!@#$%^&*()`, then backtick, tilde, the remaining punctuation
and a space. -/
def ctrlAlphabetCodes : List Nat :=
  [97, 98, 99, 100, 101, 102, 103, 104, 105, 106, 107, 108, 109,
   110, 111, 112, 113, 114, 115, 116, 117, 118, 119, 120, 121, 122,
   65, 66, 67, 68, 69, 70, 71, 72, 73, 74, 75, 76, 77,
   78, 79, 80, 81, 82, 83, 84, 85, 86, 87, 88, 89, 90,
   49, 50, 51, 52, 53, 54, 55, 56, 57, 48,
   33, 64, 35, 36, 37, 94, 38, 42, 40, 41,
   96, 126, 45, 95, 61, 43, 91, 123, 93, 125, 92, 124, 59, 58,
   39, 34, 44, 60, 46, 62, 47, 63, 32]

/-- The challenge alphabet as characters. -/
def ctrlAlphabet : List Char := ctrlAlphabetCodes.map Char.ofNat

/-- `ctrlChallenge` (ctrlhandshake.cpp:47-58): 32 characters, each
`alphabet[index(rng)]` where `uniform_int_distribution` yields an index
in `[0, alphabet.size() - 1]`; the random draws are abstracted as an
input stream. -/
def ctrlChallenge (draws : List Nat) : String :=
  String.mk ((draws.take 32).map (fun i => ctrlAlphabet.getD i ' '))

/-- `ctrlResponse` (ctrlhandshake.cpp:60-64): the hex digest of
`challenge + ":" + secret`. The digest (`utility::md5::hash_hex`, from
the external libutility) is abstracted as a parameter. -/
def ctrlResponse (digestHex : String → String)
    (challenge secret : String) : String :=
  digestHex (challenge ++ ":" ++ secret)

end Svc

namespace Svc

/-- When the pid file does not exist, `allocate` creates it exclusively
and records the caller's pid. -/
theorem pidfileAllocate_fresh (w : PidWorld) (h : w.existing = none) :
    pidfileAllocate w = AllocResult.allocated false w.selfPid := by
  simp [pidfileAllocate, h]

/-- C1: pid-file allocation is single-instance. When `allocate(p)` finds
an existing file, then (i) if the non-blocking write lock succeeds, or
the file's content equals the caller's own pid, or the content cannot be
parsed, the file is treated as stale, unlinked and re-created
exclusively with the caller's pid; and (ii) if the lock fails because
another live process holds it, `allocate` raises `AlreadyRunning`
carrying the pid read from the file, leaving the existing file in place
(no unlink/re-create is performed on that path). -/
theorem pidfile_allocate_single_instance (w : PidWorld) (c : Option Int)
    (hex : w.existing = some c) :
    ((c = none ∨ c = some w.selfPid ∨ w.lockHeldByOther = false) →
      pidfileAllocate w = AllocResult.allocated true w.selfPid)
    ∧ (∀ p : Int, c = some p → p ≠ w.selfPid → w.lockHeldByOther = true →
      pidfileAllocate w = AllocResult.alreadyRunning p) := by
  constructor
  · rintro (rfl | rfl | hl)
    · simp [pidfileAllocate, hex]
    · simp [pidfileAllocate, hex]
    · simp [pidfileAllocate, hex, hl]
  · rintro p rfl hp hl
    simp [pidfileAllocate, hex, hl, hp]

/-- Witness for C1: an existing file recording live pid 7 whose lock is
held by its owner makes `allocate` (called by pid 3) raise
`AlreadyRunning 7`; a stale lock makes pid 3 re-create the file. -/
theorem pidfile_allocate_single_instance_w :
    pidfileAllocate ⟨some (some 7), true, 3⟩ = AllocResult.alreadyRunning 7
    ∧ pidfileAllocate ⟨some (some 7), false, 3⟩
      = AllocResult.allocated true 3 := by
  constructor
  · exact (pidfile_allocate_single_instance ⟨some (some 7), true, 3⟩
      (some 7) rfl).2 7 rfl (by decide) rfl
  · exact (pidfile_allocate_single_instance ⟨some (some 7), false, 3⟩
      (some 7) rfl).1 (Or.inr (Or.inr rfl))

/-- C2: the claim says `terminator.remove(pid)` clears the matching slot
so that a later `find`/`findSelf` for that pid returns false. The source
(`auto p(find(pid)); if (p) { p = 0; }`, signalhandler.hpp:109-114)
assigns the local pointer instead of the pointee, so the slot is left
intact: after `remove(42)` on slots `[42,0,0]` the pid 42 is still
found, while the spec-modelled remove clears the slot. -/
theorem terminator_remove_leaves_slot :
    termRemove 7 [42, 0, 0] 42 = [42, 0, 0]
    ∧ termFindSelf 42 (termRemove 7 [42, 0, 0] 42) = true
    ∧ termRemoveSpec 7 [42, 0, 0] 42 = [0, 0, 0]
    ∧ termFindSelf 42 (termRemoveSpec 7 [42, 0, 0] 42) = false := by
  decide

/-- C4: for a process whose pid is not in the terminator set, SIGTERM
(and SIGINT) dispatch calls `markTerminated`, which sets only the
process-local `thisTerminated` flag — the resulting state is exactly the
input state with `thisTerminated := true` — and the shared `terminated`
flag remains false. -/
theorem sigterm_outside_terminator_local (self : Int) (s : SH)
    (hmem : termFindSelf self s.terminator = false)
    (hterm : s.terminated = false) :
    shSignal self s SigEvent.sigterm = { s with thisTerminated := true }
    ∧ (shSignal self s SigEvent.sigterm).thisTerminated = true
    ∧ (shSignal self s SigEvent.sigterm).terminated = false
    ∧ shSignal self s SigEvent.sigint = { s with thisTerminated := true }
    ∧ (shSignal self s SigEvent.sigint).terminated = false := by
  simp [shSignal, markTerminated, hmem, hterm]

/-- One `process()` call on an already-drained state, written as a
single record: last-seen values are synchronised to the loaded counter
values (`lastStatEvent` only in the main pid), the callback flags record
the counter comparisons, and the returned stop flag is
`terminated || thisTerminated`. -/
theorem shProcess_nil (self mainPid : Int) (d : SH) :
    shProcess self mainPid [] d =
      { state :=
          { d with
            lastLogRotateEvent := d.logRotateEvent
            lastStatEvent :=
              if self = mainPid then d.statEvent else d.lastStatEvent }
        logRotated := d.logRotateEvent != d.lastLogRotateEvent
        statProcessed := (d.statEvent != d.lastStatEvent) && (self == mainPid)
        stop := d.terminated || d.thisTerminated } := by
  obtain ⟨tset, term, thist, lre, llre, se, lse⟩ := d
  by_cases h1 : lre = llre <;> by_cases h2 : se = lse <;>
    by_cases h3 : self = mainPid <;>
      simp [shProcess, h1, h2, h3, bne]

/-- Draining is the fold of the pending signals; `process()` on a queue
equals `process()` with an empty queue on the drained state. -/
theorem shProcess_drain (self mainPid : Int) (pending : List SigEvent)
    (s : SH) :
    shProcess self mainPid pending s
      = shProcess self mainPid [] (pending.foldl (shSignal self) s) := by
  simp [shProcess]

/-- From a state whose log-rotate counter is synchronised with its
last-seen value, a run of `process()` calls with no intervening signal
never invokes the log-rotate callback. -/
theorem runRots_replicate_sync (self mainPid : Int) (s : SH)
    (h : s.logRotateEvent = s.lastLogRotateEvent) (n : Nat) :
    runRots self mainPid ⟨s, []⟩ (List.replicate n Ev.proc)
      = List.replicate n false := by
  induction n generalizing s with
  | zero => simp [runRots]
  | succ n ih =>
      rw [List.replicate_succ, List.replicate_succ, runRots,
        shProcess_nil]
      refine congrArg₂ _ ?_ (ih _ rfl)
      simp [h]

/-- Witness for C4: pid 5 is not in the slot array `[42, 0]`, so SIGTERM
leaves the shared flag false while setting the local flag. -/
theorem sigterm_outside_terminator_local_w :
    (shSignal 5 ⟨[42, 0], false, false, 0, 0, 0, 0⟩
      SigEvent.sigterm).terminated = false
    ∧ (shSignal 5 ⟨[42, 0], false, false, 0, 0, 0, 0⟩
      SigEvent.sigterm).thisTerminated = true := by
  refine ⟨?_, ?_⟩
  · exact (sigterm_outside_terminator_local 5 ⟨[42, 0], false, false, 0, 0, 0, 0⟩
      (by decide) rfl).2.2.1
  · exact (sigterm_outside_terminator_local 5 ⟨[42, 0], false, false, 0, 0, 0, 0⟩
      (by decide) rfl).2.1

/-- C3: `process()` drains the ready events, then compares each event
counter against its last-seen value: the log-rotate callback runs in any
process exactly when the counter changed, the stat callback runs exactly
when its counter changed and the caller is the main pid, the last-seen
values are updated to the observed values, and the call returns
`terminated || thisTerminated` of the drained state. Consequently, for a
SIGHUP received by a synchronised observer, exactly the first subsequent
`process()` call invokes the log-rotate action and later calls do not. -/
theorem process_contract :
    (∀ (self mainPid : Int) (pending : List SigEvent) (s d : SH),
      d = pending.foldl (shSignal self) s →
      (shProcess self mainPid pending s).stop
          = (d.terminated || d.thisTerminated)
      ∧ (shProcess self mainPid pending s).logRotated
          = (d.logRotateEvent != d.lastLogRotateEvent)
      ∧ (shProcess self mainPid pending s).statProcessed
          = ((d.statEvent != d.lastStatEvent) && (self == mainPid))
      ∧ (shProcess self mainPid pending s).state.lastLogRotateEvent
          = d.logRotateEvent
      ∧ (shProcess self mainPid pending s).state.lastStatEvent
          = (if self = mainPid then d.statEvent else d.lastStatEvent))
    ∧ (∀ (self mainPid : Int) (s : SH),
      s.logRotateEvent = s.lastLogRotateEvent →
      ∀ n : Nat,
      runRots self mainPid ⟨s, []⟩
          (Ev.sig SigEvent.sighup :: Ev.proc :: List.replicate n Ev.proc)
        = true :: List.replicate n false) := by
  constructor
  · rintro self mainPid pending s d rfl
    rw [shProcess_drain, shProcess_nil]
    simp
  · intro self mainPid s h n
    rw [runRots, runRots, shProcess_drain]
    simp only [List.foldl_cons, List.foldl_nil]
    rw [shProcess_nil]
    refine congrArg₂ _ ?_ (runRots_replicate_sync _ _ _ rfl n)
    simp [shSignal, h]

/-- Concatenation of two blocks of newline-terminated lines is a block
of newline-terminated lines. -/
theorem linesBlock_append (s t : String) (hs : linesBlock s)
    (ht : linesBlock t) : linesBlock (s ++ t) := by
  rcases ht with ht | ht
  · rcases hs with hs | hs
    · exact Or.inl (by simp [String.data_append, hs, ht])
    · exact Or.inr (by simp [String.data_append, ht, hs])
  · refine Or.inr ?_
    rw [String.data_append, List.getLast?_append_of_ne_nil, ht]
    intro hnil
    simp [hnil] at ht

/-- Concatenation of EOT-free strings is EOT-free. -/
theorem eotFree_append (s t : String) (hs : eotFree s) (ht : eotFree t) :
    eotFree (s ++ t) := by
  simp only [eotFree, String.data_append, List.mem_append] at *
  rintro (h | h)
  · exact hs h
  · exact ht h

/-- Concatenation preserves well-formed response fragments. -/
theorem goodStr_append (s t : String) (hs : goodStr s) (ht : goodStr t) :
    goodStr (s ++ t) :=
  ⟨eotFree_append s t hs.1 ht.1, linesBlock_append s t hs.2 ht.2⟩

/-- The fixed server reply lines are well-formed fragments. -/
theorem goodStr_lits :
    goodStr "" ∧ goodStr "empty command received\n"
    ∧ goodStr "log rotation scheduled\n"
    ∧ goodStr "termination scheduled, bye\n"
    ∧ goodStr helpText ∧ goodStr errLine := by
  refine ⟨⟨?_, ?_⟩, ⟨?_, ?_⟩, ⟨?_, ?_⟩, ⟨?_, ?_⟩, ⟨?_, ?_⟩, ⟨?_, ?_⟩⟩ <;>
    decide

/-- A conditionally written error line is a well-formed fragment. -/
theorem goodStr_iteErr (b : Bool) : goodStr (if b then errLine else "") := by
  cases b
  · exact goodStr_lits.1
  · exact goodStr_lits.2.2.2.2.2

/-- Shape of every reply block produced by `lineRead`: some well-formed
body, followed by EOT exactly when the request does not close the
connection, with the close mark agreeing with `requestCloses`. -/
theorem lineRead_shape (handler : CtrlCommand → HandlerResult)
    (hgood : ∀ c, goodStr (handler c).written) (line : String) :
    ∃ body : String, goodStr body
      ∧ (lineRead handler line).closed = requestCloses line
      ∧ (lineRead handler line).output
          = body ++ (if requestCloses line then "" else eotStr) := by
  cases hall : splitWs line with
  | nil =>
      refine ⟨"empty command received\n", goodStr_lits.2.1, ?_, ?_⟩ <;>
        simp [lineRead, requestCloses, hall]
  | cons front0 args =>
      by_cases hbg : front0.data.head? = some '!'
      · by_cases h1 : dropHead front0 = "logrotate"
        · refine ⟨"log rotation scheduled\n", goodStr_lits.2.2.1, ?_, ?_⟩ <;>
            simp [lineRead, requestCloses, hall, hbg, h1, beq_iff_eq,
              beq_eq_false_iff_ne]
        · by_cases h2 : dropHead front0 = "terminate"
          · refine ⟨"termination scheduled, bye\n",
              goodStr_lits.2.2.2.1, ?_, ?_⟩ <;>
              simp [lineRead, requestCloses, hall, hbg, h1, h2, beq_iff_eq,
                beq_eq_false_iff_ne]
          · by_cases h3 : dropHead front0 = "exit"
            · refine ⟨"", goodStr_lits.1, ?_, ?_⟩ <;>
                simp [lineRead, requestCloses, hall, hbg, h1, h2, h3, beq_iff_eq,
                  beq_eq_false_iff_ne]
            · by_cases h4 : dropHead front0 = "help"
              · refine ⟨helpText ++ (handler ⟨"help", args⟩).written
                  ++ (if (handler ⟨"help", args⟩).threw then errLine
                      else ""), ?_, ?_, ?_⟩
                · exact goodStr_append _ _
                    (goodStr_append _ _ goodStr_lits.2.2.2.2.1 (hgood _))
                    (goodStr_iteErr _)
                · simp [lineRead, requestCloses, hall, hbg, h1, h2, h3, h4,
                    beq_iff_eq, beq_eq_false_iff_ne]
                · simp [lineRead, requestCloses, hall, hbg, h1, h2, h3, h4,
                    beq_iff_eq, beq_eq_false_iff_ne]
              · refine ⟨(handler ⟨dropHead front0, args⟩).written
                  ++ (if (handler ⟨dropHead front0, args⟩).threw then errLine
                      else ""), ?_, ?_, ?_⟩
                · exact goodStr_append _ _ (hgood _) (goodStr_iteErr _)
                · simp [lineRead, requestCloses, hall, hbg, h1, h2, h3, h4,
                    beq_iff_eq, beq_eq_false_iff_ne]
                · simp [lineRead, requestCloses, hall, hbg, h1, h2, h3, h4,
                    beq_iff_eq, beq_eq_false_iff_ne]
      · by_cases h1 : front0 = "logrotate"
        · refine ⟨"log rotation scheduled\n", goodStr_lits.2.2.1, ?_, ?_⟩ <;>
            simp [lineRead, requestCloses, hall, hbg, h1, beq_iff_eq,
              beq_eq_false_iff_ne]
        · by_cases h2 : front0 = "terminate"
          · refine ⟨"termination scheduled, bye\n",
              goodStr_lits.2.2.2.1, ?_, ?_⟩ <;>
              simp [lineRead, requestCloses, hall, hbg, h1, h2, beq_iff_eq,
                beq_eq_false_iff_ne]
          · by_cases h3 : front0 = "exit"
            · refine ⟨"", goodStr_lits.1, ?_, ?_⟩ <;>
                simp [lineRead, requestCloses, hall, hbg, h1, h2, h3, beq_iff_eq,
                  beq_eq_false_iff_ne]
            · by_cases h4 : front0 = "help"
              · refine ⟨helpText ++ (handler ⟨"help", args⟩).written
                  ++ (if (handler ⟨"help", args⟩).threw then errLine
                      else ""), ?_, ?_, ?_⟩
                · exact goodStr_append _ _
                    (goodStr_append _ _ goodStr_lits.2.2.2.2.1 (hgood _))
                    (goodStr_iteErr _)
                · simp [lineRead, requestCloses, hall, hbg, h1, h2, h3, h4,
                    beq_iff_eq, beq_eq_false_iff_ne]
                · simp [lineRead, requestCloses, hall, hbg, h1, h2, h3, h4,
                    beq_iff_eq, beq_eq_false_iff_ne]
              · refine ⟨(handler ⟨front0, args⟩).written
                  ++ (if (handler ⟨front0, args⟩).threw then errLine
                      else ""), ?_, ?_, ?_⟩
                · exact goodStr_append _ _ (hgood _) (goodStr_iteErr _)
                · simp [lineRead, requestCloses, hall, hbg, h1, h2, h3, h4,
                    beq_iff_eq, beq_eq_false_iff_ne]
                · simp [lineRead, requestCloses, hall, hbg, h1, h2, h3, h4,
                    beq_iff_eq, beq_eq_false_iff_ne]

/-- C5: for every request line, the server's reply is zero or more
newline-terminated lines followed by exactly one EOT byte, except that
when the connection is closing — verb `exit` or a leading `!` on the
first token — the EOT terminator is omitted (the reply is then just the
newline-terminated lines). The hypothesis restricts user handlers to
well-formed output (newline-terminated lines with no embedded EOT). -/
theorem ctrl_reply_framing (handler : CtrlCommand → HandlerResult)
    (hgood : ∀ c, goodStr (handler c).written) (line : String) :
    (lineRead handler line).closed = requestCloses line
    ∧ (requestCloses line = false →
        ∃ body, (lineRead handler line).output = body ++ eotStr
          ∧ goodStr body)
    ∧ (requestCloses line = true →
        goodStr (lineRead handler line).output) := by
  obtain ⟨body, hb, hc, ho⟩ := lineRead_shape handler hgood line
  refine ⟨hc, ?_, ?_⟩
  · intro hr
    rw [ho, hr]
    exact ⟨body, by simp, hb⟩
  · intro hr
    rw [ho, hr]
    simpa using goodStr_append body "" hb goodStr_lits.1

/-- Witness for C5: a plain `status` command (delegated to a silent
user handler) is answered with a reply ending in exactly one EOT, and
the connection stays open. -/
theorem ctrl_reply_framing_w :
    (lineRead (fun _ => ⟨"", false⟩) "status").closed
        = requestCloses "status"
    ∧ ∃ body, (lineRead (fun _ => ⟨"", false⟩) "status").output
        = body ++ eotStr ∧ goodStr body := by
  refine ⟨(ctrl_reply_framing _ (fun _ => ⟨by decide, by decide⟩)
    "status").1, ?_⟩
  exact (ctrl_reply_framing _ (fun _ => ⟨by decide, by decide⟩)
    "status").2.1 (by decide)

/-- C9 counterexample: for the command `!foo` whose user handler throws,
the server does write the `error: failed to execute command` line, but
the connection does NOT remain open: `closed` is set (because of the
leading `!`), so no further command is read on it — the claim's
"the connection remains open" fails at this input. -/
theorem ctrl_exception_bang_closes_cx :
    (lineRead (fun _ => ⟨"", true⟩) "!foo").closed = true
    ∧ (lineRead (fun _ => ⟨"", true⟩) "!foo").output = errLine := by
  decide

/-- C9 (amended): when a user-handled command's handler throws, the
server writes the `error: failed to execute command` line and no
exception escapes; the connection remains open (and the reply gets its
EOT) unless the command carried a leading `!`, in which case the
connection closes because of the close-after-command request — not
because of the exception — and the EOT is omitted. -/
theorem ctrl_exception_error_line (handler : CtrlCommand → HandlerResult)
    (line front0 F : String) (args : List String)
    (hall : splitWs line = front0 :: args)
    (hF : F = (if front0.data.head? = some '!' then dropHead front0
               else front0))
    (hv1 : F ≠ "logrotate") (hv2 : F ≠ "terminate") (hv3 : F ≠ "exit")
    (hthrew : (handler ⟨F, args⟩).threw = true) :
    (front0.data.head? ≠ some '!' →
      (lineRead handler line).closed = false
      ∧ ∃ s, (lineRead handler line).output = s ++ errLine ++ eotStr)
    ∧ (front0.data.head? = some '!' →
      (lineRead handler line).closed = true
      ∧ ∃ s, (lineRead handler line).output = s ++ errLine) := by
  subst hF
  constructor
  · intro hbg
    simp only [hbg, if_neg, ite_false] at hv1 hv2 hv3 hthrew
    refine ⟨?_, ?_⟩
    · by_cases hv4 : front0 = "help" <;>
        simp [lineRead, hall, hbg, hv1, hv2, hv3, hv4, beq_iff_eq,
          beq_eq_false_iff_ne]
    · by_cases hv4 : front0 = "help"
      · rw [hv4] at hthrew
        exact ⟨helpText ++ (handler ⟨"help", args⟩).written, by
          simp [lineRead, hall, hbg, hv1, hv2, hv3, hv4, hthrew,
            beq_iff_eq, beq_eq_false_iff_ne]⟩
      · exact ⟨(handler ⟨front0, args⟩).written, by
          simp [lineRead, hall, hbg, hv1, hv2, hv3, hv4, hthrew,
            beq_iff_eq, beq_eq_false_iff_ne]⟩
  · intro hbg
    simp only [hbg, if_pos, ite_true] at hv1 hv2 hv3 hthrew
    refine ⟨?_, ?_⟩
    · by_cases hv4 : dropHead front0 = "help" <;>
        simp [lineRead, hall, hbg, hv1, hv2, hv3, hv4, beq_iff_eq,
          beq_eq_false_iff_ne]
    · by_cases hv4 : dropHead front0 = "help"
      · rw [hv4] at hthrew
        exact ⟨helpText ++ (handler ⟨"help", args⟩).written, by
          simp [lineRead, hall, hbg, hv1, hv2, hv3, hv4, hthrew,
            beq_iff_eq, beq_eq_false_iff_ne]⟩
      · exact ⟨(handler ⟨dropHead front0, args⟩).written, by
          simp [lineRead, hall, hbg, hv1, hv2, hv3, hv4, hthrew,
            beq_iff_eq, beq_eq_false_iff_ne]⟩

/-- Witness for C9 (amended): a bare `foo` command with a throwing
handler elicits the error line followed by EOT and the connection stays
open. -/
theorem ctrl_exception_error_line_w :
    (lineRead (fun _ => ⟨"", true⟩) "foo").closed = false
    ∧ ∃ s, (lineRead (fun _ => ⟨"", true⟩) "foo").output
        = s ++ errLine ++ eotStr :=
  (ctrl_exception_error_line (fun _ => ⟨"", true⟩) "foo" "foo" "foo" []
    (by decide) (by decide) (by decide) (by decide) (by decide)
    rfl).1 (by decide)

/-- C10: an empty request line — no tokens after splitting on runs of
space or tab — is answered with the line `empty command received`
followed by the EOT terminator; the connection is not marked for close
(so the server reads the next command) and no built-in effect fires. -/
theorem empty_command_reply (handler : CtrlCommand → HandlerResult)
    (line : String) (h : splitWs line = []) :
    lineRead handler line
      = ⟨"empty command received\n" ++ eotStr, false, CtrlEffect.noEff⟩ := by
  simp [lineRead, h]

/-- Witness for C10: a line of spaces and a tab splits to no tokens and
gets the fixed reply. -/
theorem empty_command_reply_w :
    lineRead (fun _ => ⟨"", false⟩) " \t "
      = ⟨"empty command received\n" ++ eotStr, false, CtrlEffect.noEff⟩ :=
  empty_command_reply (fun _ => ⟨"", false⟩) " \t " (by decide)

/-- C6 counterexample: against a running instance (the signal call
returns its pid, here 42), `--signal stop/0` exits with code 2
(timeout: the zero-second deadline has already passed at the first
check) while `--signal stop` exits with code 0 — the two forms are not
identical. -/
theorem signal_stop_zero_cx :
    sendSignal "stop/0" 0 [(SigOutcome.ret 42, 0)] = some 2
    ∧ sendSignal "stop" 0 [(SigOutcome.ret 42, 0)] = some 0
    ∧ (2 : Nat) ≠ 0 := by
  decide

/-- C6 (amended): `--signal stop/0` sends SIGTERM once like
`--signal stop` and maps not-running to 1 and an I/O error to 3
identically, but when the instance is running it exits 2 (immediate
timeout) whereas the form without a timeout exits 0. The clock is
monotone: the deadline check happens at or after entry. -/
theorem signal_stop_zero_amended (t0 t : Int) (o : SigOutcome)
    (rest : List (SigOutcome × Int)) (hmono : t0 ≤ t) :
    (o = SigOutcome.err →
      sendSignal "stop/0" t0 ((o, t) :: rest) = some 3
      ∧ sendSignal "stop" t0 ((o, t) :: rest) = some 3)
    ∧ (o = SigOutcome.ret 0 →
      sendSignal "stop/0" t0 ((o, t) :: rest) = some 1
      ∧ sendSignal "stop" t0 ((o, t) :: rest) = some 1)
    ∧ (∀ p : Int, o = SigOutcome.ret p → p ≠ 0 →
      sendSignal "stop/0" t0 ((o, t) :: rest) = some 2
      ∧ sendSignal "stop" t0 ((o, t) :: rest) = some 0) := by
  have hp0 : parseSigDef "stop/0" = Except.ok ⟨"stop", SIGTERM, 0⟩ := by
    decide
  have hp : parseSigDef "stop" = Except.ok ⟨"stop", SIGTERM, -1⟩ := by
    decide
  have ht : t ≥ t0 + 0 * 1000 := by omega
  refine ⟨?_, ?_, ?_⟩
  · rintro rfl
    constructor <;>
      simp [sendSignal, hp0, hp, waitForStop, waitForStopGo, SIGTERM]
  · rintro rfl
    constructor <;>
      simp [sendSignal, hp0, hp, waitForStop, waitForStopGo, SIGTERM]
  · rintro p rfl hpz
    refine ⟨?_, ?_⟩
    · simp [sendSignal, hp0, waitForStop, waitForStopGo, SIGTERM, hpz]
      intro hlt
      exact absurd hmono (by omega)
    · simp [sendSignal, hp, waitForStopGo, SIGTERM, hpz]

/-- Witness for C6 (amended): a running instance with pid 7, deadline
check at the entry instant. -/
theorem signal_stop_zero_amended_w :
    sendSignal "stop/0" 0 [(SigOutcome.ret 7, 0)] = some 2
    ∧ sendSignal "stop" 0 [(SigOutcome.ret 7, 0)] = some 0 :=
  (signal_stop_zero_amended 0 0 (SigOutcome.ret 7) [] (by decide)).2.2
    7 rfl (by decide)

/-- C7 counterexample: the local UNIX-socket client
(`CtrlClient::Detail::command`) returns the split reply verbatim: a
trailing empty element survives (`["ok", ""]`, not `["ok"]`) and an
`error: ` line is returned as data instead of raising
`CtrlCommandError` — so the claim fails for the local client, while the
template client used over TCP does raise. -/
theorem ctrl_client_local_raw_cx :
    localCommand "ok\n" = ["ok", ""]
    ∧ ["ok", ""] ≠ ["ok"]
    ∧ localCommand "error: boom" = ["error: boom"]
    ∧ detailCommand "client" "error: boom" = Except.error "client: boom" := by
  decide

/-- C7 (amended): the template client (`detail::CtrlClient`, used by
the TCP `NetCtrlClient`) raises `CtrlCommandError` carrying the tail
after `error: ` when the first reply line carries that tag, and
otherwise drops a trailing empty element before returning the lines;
the local UNIX-socket client (`ctrlclient.cpp`) returns the newline
split of the reply unchanged. -/
theorem ctrl_client_command_behaviour (name response front : String)
    (rest : List String) (h : splitNl response = front :: rest) :
    (startsErr front = true →
      detailCommand name response
        = Except.error (name ++ ": " ++ dropN front 7))
    ∧ (startsErr front = false →
      detailCommand name response
        = Except.ok (if (front :: rest).getLast? = some ""
                     then (front :: rest).dropLast else front :: rest))
    ∧ localCommand response = front :: rest := by
  refine ⟨?_, ?_, h⟩
  · intro he
    simp [detailCommand, h, he]
  · intro he
    simp only [detailCommand, h, he, Bool.false_eq_true, if_false]
    split <;> simp_all

/-- Witness for C7 (amended): a reply whose first line carries the
`error: ` tag makes the template client raise with the tail. -/
theorem ctrl_client_command_behaviour_w :
    detailCommand "client" "error: boom\n" = Except.error "client: boom" :=
  (ctrl_client_command_behaviour "client" "error: boom\n" "error: boom"
    [""] (by decide)).1 (by decide)

/-- C8 counterexample: the fixed challenge alphabet has 95 distinct
characters, not 91 as claimed. -/
theorem ctrl_challenge_alphabet_cx :
    ctrlAlphabet.length = 95 ∧ ctrlAlphabet.Nodup
    ∧ ¬ctrlAlphabet.length = 91 := by
  decide

/-- C8 (amended): every generated challenge is a string of exactly 32
characters, each drawn from the fixed 95-character printable alphabet
(letters, digits, symbols, space), and the expected response is the hex
digest of `challenge ++ ":" ++ secret`. -/
theorem ctrl_challenge_shape (draws : List Nat)
    (hlen : 32 ≤ draws.length) (hin : ∀ d ∈ draws, d < 95) :
    (ctrlChallenge draws).data.length = 32
    ∧ (∀ c ∈ (ctrlChallenge draws).data, c ∈ ctrlAlphabet)
    ∧ ctrlAlphabet.length = 95
    ∧ ∀ (digestHex : String → String) (secret : String),
        ctrlResponse digestHex (ctrlChallenge draws) secret
          = digestHex (ctrlChallenge draws ++ ":" ++ secret) := by
  refine ⟨?_, ?_, by decide, fun dg sec => rfl⟩
  · simp [ctrlChallenge, List.length_take]
    omega
  · intro c hc
    simp only [ctrlChallenge, List.mem_map] at hc
    obtain ⟨a, ha, rfl⟩ := hc
    have haa : a < 95 := hin a (List.mem_of_mem_take ha)
    have hlen95 : a < ctrlAlphabet.length := by
      have : ctrlAlphabet.length = 95 := by decide
      omega
    rw [List.getD_eq_getElem _ _ hlen95]
    exact List.getElem_mem hlen95

/-- Witness for C8 (amended): the draw stream 0,1,…,31 produces a
32-character challenge. -/
theorem ctrl_challenge_shape_w :
    (ctrlChallenge (List.range 32)).data.length = 32 :=
  (ctrl_challenge_shape (List.range 32) (by decide) (by decide)).1

/-- Witness for C3: from a fully zeroed state, one SIGHUP followed by
two `process()` calls rotates logs in the first call only; and the
drained-state contract holds at a concrete drained state. -/
theorem process_contract_w :
    runRots 1 1 ⟨⟨[], false, false, 0, 0, 0, 0⟩, []⟩
        (Ev.sig SigEvent.sighup :: Ev.proc :: List.replicate 1 Ev.proc)
      = true :: List.replicate 1 false
    ∧ (shProcess 1 1 [SigEvent.sighup] ⟨[], false, false, 0, 0, 0, 0⟩).stop
      = false := by
  constructor
  · exact process_contract.2 1 1 ⟨[], false, false, 0, 0, 0, 0⟩ rfl 1
  · exact (process_contract.1 1 1 [SigEvent.sighup]
      ⟨[], false, false, 0, 0, 0, 0⟩ _ rfl).1

end Svc
